import Mathlib

/-!
Shallow embedding of `copulae/copula/base.py` (class `BaseCopula`).

The file models the copula data model, the fit-state guard, the derived
operations (`log_lik`, the concentration functions, `lambda_`), the
dependence-measure contract stubs and the fit orchestration pipeline.

Modelling conventions:
* Real numbers are modelled as `ℚ` (the code works with exact arithmetic on
  the values the claims touch; no floating-point rounding is at issue).
* A data matrix (numpy `n × d` array) is a `List (List ℚ)`.
* Python exceptions are modelled by the `Err` type and fallible methods
  return `Except Err α`.  The spec's error taxonomy maps onto the Python
  exception classes used by the source: `ValueError` on a range check is
  `DomainError`, `RuntimeError` on the fit-state guard is
  `PreconditionError`, `NotImplementedError` is `NotImplemented`.
* Abstract methods supplied by concrete families (`cdf`, `pdf`,
  `__random__`, `__lambda__`) are passed as function parameters: the base
  class only ever calls through them, so a universally quantified function
  argument is a faithful rendering of dynamic dispatch.
* Mutation of the instance is explicit state passing: a method that mutates
  `self` consumes a `Copula` and produces a `Copula`.
-/

namespace Copulae

/-- Fit statistics stored on the instance after a successful fit
(`fit_stats`): estimated parameters, achieved log-likelihood and optional
standard errors (spec §3, written only by the estimator). -/
structure FitStats where
  estParams : List ℚ
  logLikVal : ℚ
  stdErrs : Option (List ℚ)
deriving DecidableEq, Repr

/-- Error taxonomy.  `domainError` models the `ValueError` raised by the
range checks, `preconditionError` the `RuntimeError` raised by the
fit-state guard (carrying the source's message), `notImplementedError` the
`NotImplementedError` of the contract stubs, `estimationError` an estimator
failure. -/
inductive Err where
  | domainError
  | preconditionError (msg : String)
  | notImplementedError
  | validationError
  | estimationError
deriving DecidableEq, Repr

/-- The copula instance state: dimension and name fixed at construction,
`params` the family parameter vector, `fit_stats` the null-until-fitted
record (`None` models Python `None`). -/
structure Copula where
  dim : Nat
  name : String
  params : List ℚ
  fit_stats : Option FitStats
deriving DecidableEq, Repr

/-- Tail dependence value record, the two-field target of
`TailDep = NamedTuple('Lambda', lower=..., upper=...)` in the source. -/
structure TailDep where
  lower : List ℚ
  upper : List ℚ
deriving DecidableEq, Repr

/-- Fit configuration: the keyword arguments of `BaseCopula.fit`
(`x0`, `method`, `est_var`, `verbose`, `optim_options`). -/
structure FitConfig where
  x0 : Option (List ℚ)
  method : String
  est_var : Bool
  verbose : Nat
  optim_options : Option (List (String × ℚ))
deriving DecidableEq, Repr

namespace BaseCopula

/-- Model of `BaseCopula.random(self, n, seed)`: the fit-state guard.  Source:
`if self.fit_stats is None: raise RuntimeError("Copula must be fitted
before it can generate random numbers")` then
`return self.__random__(n, seed)`.  The family sampling primitive
`__random__` is the function parameter `priv`. -/
def random (c : Copula) (priv : Nat → Option Nat → List (List ℚ))
    (n : Nat) (seed : Option Nat) : Except Err (List (List ℚ)) :=
  match c.fit_stats with
  | none => Except.error
      (Err.preconditionError ("Copula must be fitted before it can generate random numbers"))
  | some _ => Except.ok (priv n seed)

/-- Model of `BaseCopula.log_lik(self, data)`.  Source:
`return self.pdf(data, log=True).sum()`.  The family density `pdf` maps the
data matrix and the log flag to the vector of per-observation values. -/
def log_lik (pdf : List (List ℚ) → Bool → List ℚ)
    (data : List (List ℚ)) : ℚ :=
  (pdf data true).sum

/-- Model of `BaseCopula.concentration_down(self, x)`.  Source: raise `ValueError`
when `x > 0.5 or x < 0`, else `return self.cdf([x, x]) / x`.  The family
CDF on the diagonal point `[x, x]` is `cdf x x`. -/
def concentration_down (cdf : ℚ → ℚ → ℚ) (x : ℚ) : Except Err ℚ :=
  if x > 1/2 ∨ x < 0 then Except.error Err.domainError
  else Except.ok (cdf x x / x)

/-- Model of `BaseCopula.concentration_up(self, x)`.  Source: raise `ValueError`
when `x < 0.5 or x > 1`, else `return (1. - 2 * x + self.cdf([x, x])) / (1. - x)`. -/
def concentration_up (cdf : ℚ → ℚ → ℚ) (x : ℚ) : Except Err ℚ :=
  if x < 1/2 ∨ x > 1 then Except.error Err.domainError
  else Except.ok ((1 - 2 * x + cdf x x) / (1 - x))

/-- Model of `BaseCopula.concentration_function(self, x)`.  Source: raise
`ValueError` when `x < 0 or x > 1`; `if x < 0.5` delegate to
`concentration_down`, else to `concentration_up`. -/
def concentration_function (cdf : ℚ → ℚ → ℚ) (x : ℚ) : Except Err ℚ :=
  if x < 0 ∨ x > 1 then Except.error Err.domainError
  else if x < 1/2 then concentration_down cdf x
  else concentration_up cdf x

/-- Model of the `BaseCopula.lambda_` property.  Source:
`Lambda = namedtuple('lambda', ['lower', 'upper']); return Lambda(*self.__lambda__)`:
a fresh two-field record is built from the family primitive `__lambda__`
(the function parameter `lamPriv`, evaluated on the current instance) at
every access. -/
def lambda_ (lamPriv : Copula → List ℚ × List ℚ) (c : Copula) : TailDep :=
  TailDep.mk (lamPriv c).1 (lamPriv c).2

/-- Model of the `BaseCopula.tau` property.  Source: `raise NotImplementedError`. -/
def tau (_c : Copula) : Except Err ℚ :=
  Except.error Err.notImplementedError

/-- Model of the `BaseCopula.rho` property.  Source: `raise NotImplementedError`. -/
def rho (_c : Copula) : Except Err ℚ :=
  Except.error Err.notImplementedError

/-- Model of `BaseCopula.itau(self, tau)`.  Source: `raise NotImplementedError`. -/
def itau (_c : Copula) (_tauVals : List ℚ) : Except Err (List ℚ) :=
  Except.error Err.notImplementedError

/-- Model of `BaseCopula.irho(self, rho)`.  Source: `raise NotImplementedError`. -/
def irho (_c : Copula) (_rhoVals : List ℚ) : Except Err (List ℚ) :=
  Except.error Err.notImplementedError

/-- Model of the `BaseCopula.dtau` property (declared with an optional `x`).  Source:
`raise NotImplementedError`. -/
def dtau (_c : Copula) (_x : Option (List ℚ)) : Except Err (List ℚ) :=
  Except.error Err.notImplementedError

/-- Model of the `BaseCopula.drho` property (declared with an optional `x`).  Source:
`raise NotImplementedError`. -/
def drho (_c : Copula) (_x : Option (List ℚ)) : Except Err (List ℚ) :=
  Except.error Err.notImplementedError

/-- Model of the static method `BaseCopula.pobs(data, ties)`.  Source:
`return pseudo_obs(data, ties)`.  The rank utility `pseudo_obs`
(`copulae.math_tools.misc`, not part of the modelled file) is the function
parameter `pse`. -/
def pobs (pse : List (List ℚ) → String → List (List ℚ))
    (data : List (List ℚ)) (ties : String) : List (List ℚ) :=
  pse data ties

end BaseCopula

/-- The per-family implementations of the dependence-measure contract: a
concrete family may override any of the six stubs (`some f`) or leave the
base-contract default in place (`none`), modelling Python method
overriding. -/
structure DepMeasureImpls where
  tauImpl : Option (Copula → Except Err ℚ)
  rhoImpl : Option (Copula → Except Err ℚ)
  itauImpl : Option (Copula → List ℚ → Except Err (List ℚ))
  irhoImpl : Option (Copula → List ℚ → Except Err (List ℚ))
  dtauImpl : Option (Copula → Option (List ℚ) → Except Err (List ℚ))
  drhoImpl : Option (Copula → Option (List ℚ) → Except Err (List ℚ))

/-- Dynamic dispatch for `tau`: the family override when supplied, the base
contract stub otherwise. -/
def dispatchTau (f : DepMeasureImpls) (c : Copula) : Except Err ℚ :=
  match f.tauImpl with
  | some g => g c
  | none => BaseCopula.tau c

/-- Dynamic dispatch for `rho`. -/
def dispatchRho (f : DepMeasureImpls) (c : Copula) : Except Err ℚ :=
  match f.rhoImpl with
  | some g => g c
  | none => BaseCopula.rho c

/-- Dynamic dispatch for `itau`. -/
def dispatchItau (f : DepMeasureImpls) (c : Copula) (t : List ℚ) :
    Except Err (List ℚ) :=
  match f.itauImpl with
  | some g => g c t
  | none => BaseCopula.itau c t

/-- Dynamic dispatch for `irho`. -/
def dispatchIrho (f : DepMeasureImpls) (c : Copula) (r : List ℚ) :
    Except Err (List ℚ) :=
  match f.irhoImpl with
  | some g => g c r
  | none => BaseCopula.irho c r

/-- Dynamic dispatch for `dtau`. -/
def dispatchDtau (f : DepMeasureImpls) (c : Copula) (x : Option (List ℚ)) :
    Except Err (List ℚ) :=
  match f.dtauImpl with
  | some g => g c x
  | none => BaseCopula.dtau c x

/-- Dynamic dispatch for `drho`. -/
def dispatchDrho (f : DepMeasureImpls) (c : Copula) (x : Option (List ℚ)) :
    Except Err (List ℚ) :=
  match f.drhoImpl with
  | some g => g c x
  | none => BaseCopula.drho c x

/-- Modelled from the spec: `CopulaEstimator` (`copulae.estimators`) is not
under the modelled sources; per spec §4.3 and §6 it receives the copula
instance, the transformed data and the fit configuration, drives the
optimizer (abstracted as `optimize`), and on success sets `params` to the
optimized values and populates `fit_stats`; on optimizer non-convergence it
fails with `EstimationError` and the instance's `params`/`fit_stats` remain
unchanged (no partial mutation).  The result is the post-call instance
state paired with the raised error, if any. -/
def CopulaEstimator
    (optimize : Copula → List (List ℚ) → FitConfig → Except Err (List ℚ × FitStats))
    (c : Copula) (data : List (List ℚ)) (cfg : FitConfig) :
    Copula × Option Err :=
  match optimize c data cfg with
  | Except.ok (p, s) => ({ c with params := p, fit_stats := some s }, none)
  | Except.error _ => (c, some Err.estimationError)

/-- Model of `BaseCopula.fit(self, data, x0=None, method='mpl', est_var=False,
verbose=1, optim_options=None)`.  Source: `data = self.pobs(data)` (the
`ties` default `'average'` applies) then
`CopulaEstimator(self, data, x0=x0, method=method, est_var=est_var,
verbose=verbose, optim_options=optim_options)`; no value is returned, the
mutation of `self` (here: the returned state) is the sole effect. -/
def fit (pse : List (List ℚ) → String → List (List ℚ))
    (optimize : Copula → List (List ℚ) → FitConfig → Except Err (List ℚ × FitStats))
    (c : Copula) (data : List (List ℚ)) (cfg : FitConfig) :
    Copula × Option Err :=
  let transformed := BaseCopula.pobs pse data ("average")
  CopulaEstimator optimize c transformed cfg


/-- Helper: a list sum is the sum of its entries over the index range. -/
lemma list_sum_eq_range_sum (l : List ℚ) :
    l.sum = ∑ i ∈ Finset.range l.length, l.getD i 0 := by
  induction l with
  | nil => simp
  | cons a t ih => simp [Finset.sum_range_succ', ih, add_comm]

/-- Claim C1: on an UNFITTED instance (`fit_stats = none`), `random(n, seed)`
fails with a precondition error and its result does not depend on the family
sampling primitive (it is never invoked); on a FITTED instance
(`fit_stats` populated), `random(n, seed)` delegates to the family primitive
`__random__` with the same `n` and `seed`. -/
theorem random_gated_by_fit_state (c : Copula)
    (priv priv2 : Nat → Option Nat → List (List ℚ)) (n : Nat) (seed : Option Nat) :
    (c.fit_stats = none →
      BaseCopula.random c priv n seed =
        Except.error
          (Err.preconditionError ("Copula must be fitted before it can generate random numbers"))
      ∧ BaseCopula.random c priv n seed = BaseCopula.random c priv2 n seed)
    ∧ ∀ s : FitStats, c.fit_stats = some s →
      BaseCopula.random c priv n seed = Except.ok (priv n seed) := by
  constructor
  · intro h
    constructor <;> simp [BaseCopula.random, h]
  · intro s h
    simp [BaseCopula.random, h]

/-- Witness for C1 at concrete unfitted and fitted instances. -/
theorem random_gated_by_fit_state_witness :
    (BaseCopula.random ⟨2, "indep", [], none⟩ (fun n _ => List.replicate n [0, 0]) 3 none =
      Except.error
        (Err.preconditionError ("Copula must be fitted before it can generate random numbers")))
    ∧ (BaseCopula.random ⟨2, "indep", [], some ⟨[1], 0, none⟩⟩
        (fun n _ => List.replicate n [0, 0]) 3 none =
      Except.ok (List.replicate 3 [0, 0])) :=
  ⟨((random_gated_by_fit_state ⟨2, "indep", [], none⟩
      (fun n _ => List.replicate n [0, 0]) (fun n _ => List.replicate n [0, 0]) 3 none).1 rfl).1,
   (random_gated_by_fit_state ⟨2, "indep", [], some ⟨[1], 0, none⟩⟩
      (fun n _ => List.replicate n [0, 0]) (fun n _ => List.replicate n [0, 0]) 3 none).2
      ⟨[1], 0, none⟩ rfl⟩

/-- Claim C2: whenever `fit` fails (the estimator raises), the instance's
`params` and `fit_stats` are identical by value to their pre-call state. -/
theorem fit_failure_preserves_state
    (pse : List (List ℚ) → String → List (List ℚ))
    (optimize : Copula → List (List ℚ) → FitConfig → Except Err (List ℚ × FitStats))
    (c : Copula) (data : List (List ℚ)) (cfg : FitConfig) (e : Err) :
    (fit pse optimize c data cfg).2 = some e →
      (fit pse optimize c data cfg).1.params = c.params
      ∧ (fit pse optimize c data cfg).1.fit_stats = c.fit_stats := by
  simp only [fit, CopulaEstimator]
  cases h2 : optimize c (BaseCopula.pobs pse data ("average")) cfg with
  | ok v => obtain ⟨p, s⟩ := v; intro h; exact absurd h (by simp)
  | error err => intro _; exact ⟨rfl, rfl⟩

/-- Witness for C2: a concrete non-converging estimator leaves a concrete
fitted instance unchanged. -/
theorem fit_failure_preserves_state_witness :
    ((fit (fun d _ => d) (fun _ _ _ => Except.error Err.estimationError)
        ⟨2, "gauss", [5], some ⟨[5], 1, none⟩⟩ [[1, 2]] ⟨none, "mpl", false, 1, none⟩).2 =
      some Err.estimationError)
    ∧ (fit (fun d _ => d) (fun _ _ _ => Except.error Err.estimationError)
        ⟨2, "gauss", [5], some ⟨[5], 1, none⟩⟩ [[1, 2]] ⟨none, "mpl", false, 1, none⟩).1.params = [5]
    ∧ (fit (fun d _ => d) (fun _ _ _ => Except.error Err.estimationError)
        ⟨2, "gauss", [5], some ⟨[5], 1, none⟩⟩ [[1, 2]] ⟨none, "mpl", false, 1, none⟩).1.fit_stats =
      some ⟨[5], 1, none⟩ :=
  ⟨rfl,
   (fit_failure_preserves_state (fun d _ => d) (fun _ _ _ => Except.error Err.estimationError)
      ⟨2, "gauss", [5], some ⟨[5], 1, none⟩⟩ [[1, 2]] ⟨none, "mpl", false, 1, none⟩
      Err.estimationError rfl).1,
   (fit_failure_preserves_state (fun d _ => d) (fun _ _ _ => Except.error Err.estimationError)
      ⟨2, "gauss", [5], some ⟨[5], 1, none⟩⟩ [[1, 2]] ⟨none, "mpl", false, 1, none⟩
      Err.estimationError rfl).2⟩

/-- Claim C3: `log_lik(data)` equals the sum over all observations of
`pdf(data, log=true)`; it is derived from the family `pdf` alone. -/
theorem log_lik_is_sum_of_log_pdf (pdf : List (List ℚ) → Bool → List ℚ)
    (data : List (List ℚ)) :
    BaseCopula.log_lik pdf data =
      ∑ i ∈ Finset.range (pdf data true).length, (pdf data true).getD i 0 :=
  list_sum_eq_range_sum (pdf data true)

/-- Claim C4: `concentration_function(x)` equals `concentration_down(x)` on
`[0, 0.5)`, equals `concentration_up(x)` on `[0.5, 1]` (the boundary `0.5`
dispatches to `concentration_up`), and fails with a domain error outside
`[0, 1]`. -/
theorem concentration_function_dispatch (cdf : ℚ → ℚ → ℚ) (x : ℚ) :
    (0 ≤ x → x < 1/2 →
      BaseCopula.concentration_function cdf x = BaseCopula.concentration_down cdf x)
    ∧ (1/2 ≤ x → x ≤ 1 →
      BaseCopula.concentration_function cdf x = BaseCopula.concentration_up cdf x)
    ∧ (x < 0 ∨ 1 < x →
      BaseCopula.concentration_function cdf x = Except.error Err.domainError) := by
  refine ⟨?_, ?_, ?_⟩
  · intro h1 h2
    have hx : ¬ (x < 0 ∨ x > 1) := by push_neg; exact ⟨h1, by linarith⟩
    simp only [BaseCopula.concentration_function]
    rw [if_neg hx, if_pos h2]
  · intro h1 h2
    have hx : ¬ (x < 0 ∨ x > 1) := by push_neg; exact ⟨by linarith, h2⟩
    have hx2 : ¬ x < 1/2 := by linarith
    simp only [BaseCopula.concentration_function]
    rw [if_neg hx, if_neg hx2]
  · intro h
    have hx : x < 0 ∨ x > 1 := by rcases h with h | h; exact Or.inl h; exact Or.inr h
    simp only [BaseCopula.concentration_function]
    rw [if_pos hx]

/-- Witness for C4 at `x = 1/4` (lower half), `x = 1/2` (boundary, upper
half) and `x = 2` (out of range). -/
theorem concentration_function_dispatch_witness :
    (BaseCopula.concentration_function (fun a b => a * b) (1/4) =
      BaseCopula.concentration_down (fun a b => a * b) (1/4))
    ∧ (BaseCopula.concentration_function (fun a b => a * b) (1/2) =
      BaseCopula.concentration_up (fun a b => a * b) (1/2))
    ∧ (BaseCopula.concentration_function (fun a b => a * b) 2 =
      Except.error Err.domainError) :=
  ⟨(concentration_function_dispatch (fun a b => a * b) (1/4)).1 (by norm_num) (by norm_num),
   (concentration_function_dispatch (fun a b => a * b) (1/2)).2.1 (by norm_num) (by norm_num),
   (concentration_function_dispatch (fun a b => a * b) 2).2.2 (Or.inr (by norm_num))⟩

/-- Claim C5: `concentration_down(x)` fails with a domain error exactly when
`x` is outside `[0, 0.5]` and succeeds exactly on `[0, 0.5]` (so `0.5` does
not raise and `0.6` does); `concentration_up(x)` fails with a domain error
exactly when `x` is outside `[0.5, 1]` and succeeds exactly on `[0.5, 1]`. -/
theorem concentration_domain_guards (cdf : ℚ → ℚ → ℚ) (x : ℚ) :
    ((∃ y, BaseCopula.concentration_down cdf x = Except.ok y) ↔ 0 ≤ x ∧ x ≤ 1/2)
    ∧ (BaseCopula.concentration_down cdf x = Except.error Err.domainError ↔
        (x < 0 ∨ 1/2 < x))
    ∧ ((∃ y, BaseCopula.concentration_up cdf x = Except.ok y) ↔ 1/2 ≤ x ∧ x ≤ 1)
    ∧ (BaseCopula.concentration_up cdf x = Except.error Err.domainError ↔
        (x < 1/2 ∨ 1 < x)) := by
  refine ⟨?_, ?_, ?_, ?_⟩
  · unfold BaseCopula.concentration_down
    split_ifs with h
    · constructor
      · rintro ⟨y, hy⟩; cases hy
      · rintro ⟨h1, h2⟩; rcases h with h | h <;> linarith
    · push_neg at h
      constructor
      · intro _; exact ⟨h.2, h.1⟩
      · intro _; exact ⟨_, rfl⟩
  · unfold BaseCopula.concentration_down
    split_ifs with h
    · constructor
      · intro _; rcases h with h | h
        · exact Or.inr h
        · exact Or.inl h
      · intro _; rfl
    · push_neg at h
      constructor
      · intro hy; cases hy
      · rintro (h1 | h1) <;> [exact absurd h1 (not_lt.mpr h.2); exact absurd h1 (not_lt.mpr h.1)]
  · unfold BaseCopula.concentration_up
    split_ifs with h
    · constructor
      · rintro ⟨y, hy⟩; cases hy
      · rintro ⟨h1, h2⟩; rcases h with h | h <;> linarith
    · push_neg at h
      constructor
      · intro _; exact ⟨h.1, h.2⟩
      · intro _; exact ⟨_, rfl⟩
  · unfold BaseCopula.concentration_up
    split_ifs with h
    · constructor
      · intro _; rcases h with h | h
        · exact Or.inl h
        · exact Or.inr h
      · intro _; rfl
    · push_neg at h
      constructor
      · intro hy; cases hy
      · rintro (h1 | h1) <;> [exact absurd h1 (not_lt.mpr h.1); exact absurd h1 (not_lt.mpr h.2)]


/-- Claim C6: inside their domains the concentration functions compute the
documented formulas, `down(x) = CDF(x,x)/x` and
`up(x) = (1 - 2x + CDF(x,x)) / (1 - x)`; for a family whose diagonal CDF is
`x ^ 2`, `concentration_down(0.3)` yields `0.3`. -/
theorem concentration_formulas (cdf : ℚ → ℚ → ℚ) (x : ℚ) :
    (0 ≤ x → x ≤ 1/2 →
      BaseCopula.concentration_down cdf x = Except.ok (cdf x x / x))
    ∧ (1/2 ≤ x → x ≤ 1 →
      BaseCopula.concentration_up cdf x = Except.ok ((1 - 2 * x + cdf x x) / (1 - x)))
    ∧ ((∀ y, cdf y y = y ^ 2) →
      BaseCopula.concentration_down cdf (3/10) = Except.ok (3/10)) := by
  refine ⟨?_, ?_, ?_⟩
  · intro h1 h2
    have hx : ¬ (x > 1/2 ∨ x < 0) := by push_neg; exact ⟨h2, h1⟩
    simp only [BaseCopula.concentration_down]
    rw [if_neg hx]
  · intro h1 h2
    have hx : ¬ (x < 1/2 ∨ x > 1) := by push_neg; exact ⟨h1, h2⟩
    simp only [BaseCopula.concentration_up]
    rw [if_neg hx]
  · intro hsq
    have hx : ¬ ((3:ℚ)/10 > 1/2 ∨ (3:ℚ)/10 < 0) := by norm_num
    simp only [BaseCopula.concentration_down]
    rw [if_neg hx, hsq]
    norm_num

/-- Witness for C6 with the independence diagonal `cdf x x = x * x` and a
family with diagonal CDF `x ^ 2`. -/
theorem concentration_formulas_witness :
    BaseCopula.concentration_down (fun a b => a * b) (3/10) =
      Except.ok ((3/10 : ℚ) * (3/10) / (3/10))
    ∧ BaseCopula.concentration_up (fun a b => a * b) (3/4) =
      Except.ok ((1 - 2 * (3/4 : ℚ) + (3/4) * (3/4)) / (1 - 3/4))
    ∧ BaseCopula.concentration_down (fun y _ => y ^ 2) (3/10) = Except.ok (3/10) :=
  ⟨(concentration_formulas (fun a b => a * b) (3/10)).1 (by norm_num) (by norm_num),
   (concentration_formulas (fun a b => a * b) (3/4)).2.1 (by norm_num) (by norm_num),
   (concentration_formulas (fun y _ => y ^ 2) (3/10)).2.2 (fun y => rfl)⟩

/-- Claim C7: `fit` first transforms the data through the pseudo-observation
transform with ties policy "average" and then delegates the transformed data,
the copula instance and the whole fit configuration to the estimator
collaborator; the returned value is only the (possibly mutated) instance
state together with the error signal — nothing else is produced. -/
theorem fit_pipeline_delegation
    (pse : List (List ℚ) → String → List (List ℚ))
    (optimize : Copula → List (List ℚ) → FitConfig → Except Err (List ℚ × FitStats))
    (c : Copula) (data : List (List ℚ)) (cfg : FitConfig) :
    fit pse optimize c data cfg =
      CopulaEstimator optimize c (BaseCopula.pobs pse data ("average")) cfg := rfl

/-- Claim C8: each of the six dependence-measure operations, dispatched on a
family that has not supplied its own implementation, fails with the
not-implemented error of the base contract. -/
theorem dep_measures_default_not_implemented
    (f : DepMeasureImpls) (c : Copula) (t r : List ℚ) (x : Option (List ℚ)) :
    (f.tauImpl = none → dispatchTau f c = Except.error Err.notImplementedError)
    ∧ (f.rhoImpl = none → dispatchRho f c = Except.error Err.notImplementedError)
    ∧ (f.itauImpl = none → dispatchItau f c t = Except.error Err.notImplementedError)
    ∧ (f.irhoImpl = none → dispatchIrho f c r = Except.error Err.notImplementedError)
    ∧ (f.dtauImpl = none → dispatchDtau f c x = Except.error Err.notImplementedError)
    ∧ (f.drhoImpl = none → dispatchDrho f c x = Except.error Err.notImplementedError) := by
  refine ⟨?_, ?_, ?_, ?_, ?_, ?_⟩ <;> intro h <;>
    simp [dispatchTau, dispatchRho, dispatchItau, dispatchIrho, dispatchDtau, dispatchDrho, h,
      BaseCopula.tau, BaseCopula.rho, BaseCopula.itau, BaseCopula.irho,
      BaseCopula.dtau, BaseCopula.drho]

/-- Witness for C8: a family overriding none of the six stubs. -/
theorem dep_measures_default_not_implemented_witness :
    dispatchTau ⟨none, none, none, none, none, none⟩ ⟨2, "clayton", [1], none⟩ =
      Except.error Err.notImplementedError
    ∧ dispatchRho ⟨none, none, none, none, none, none⟩ ⟨2, "clayton", [1], none⟩ =
      Except.error Err.notImplementedError
    ∧ dispatchItau ⟨none, none, none, none, none, none⟩ ⟨2, "clayton", [1], none⟩ [0] =
      Except.error Err.notImplementedError
    ∧ dispatchIrho ⟨none, none, none, none, none, none⟩ ⟨2, "clayton", [1], none⟩ [0] =
      Except.error Err.notImplementedError
    ∧ dispatchDtau ⟨none, none, none, none, none, none⟩ ⟨2, "clayton", [1], none⟩ none =
      Except.error Err.notImplementedError
    ∧ dispatchDrho ⟨none, none, none, none, none, none⟩ ⟨2, "clayton", [1], none⟩ none =
      Except.error Err.notImplementedError :=
  ⟨(dep_measures_default_not_implemented ⟨none, none, none, none, none, none⟩
      ⟨2, "clayton", [1], none⟩ [0] [0] none).1 rfl,
   (dep_measures_default_not_implemented ⟨none, none, none, none, none, none⟩
      ⟨2, "clayton", [1], none⟩ [0] [0] none).2.1 rfl,
   (dep_measures_default_not_implemented ⟨none, none, none, none, none, none⟩
      ⟨2, "clayton", [1], none⟩ [0] [0] none).2.2.1 rfl,
   (dep_measures_default_not_implemented ⟨none, none, none, none, none, none⟩
      ⟨2, "clayton", [1], none⟩ [0] [0] none).2.2.2.1 rfl,
   (dep_measures_default_not_implemented ⟨none, none, none, none, none, none⟩
      ⟨2, "clayton", [1], none⟩ [0] [0] none).2.2.2.2.1 rfl,
   (dep_measures_default_not_implemented ⟨none, none, none, none, none, none⟩
      ⟨2, "clayton", [1], none⟩ [0] [0] none).2.2.2.2.2 rfl⟩

/-- Claim C9: every access to `lambda_` returns the two-field (lower, upper)
record freshly built from the family primitive `__lambda__` evaluated at that
access; when the primitive is a function of the current `params` alone, two
instances with equal `params` yield equal tail-dependence values. -/
theorem lambda_derived_from_primitive
    (lamPriv : Copula → List ℚ × List ℚ) (c c2 : Copula) :
    BaseCopula.lambda_ lamPriv c = TailDep.mk (lamPriv c).1 (lamPriv c).2
    ∧ ((∀ a b : Copula, a.params = b.params → lamPriv a = lamPriv b) →
        c.params = c2.params →
        BaseCopula.lambda_ lamPriv c = BaseCopula.lambda_ lamPriv c2) := by
  constructor
  · rfl
  · intro hpure hp
    unfold BaseCopula.lambda_
    rw [hpure c c2 hp]

/-- Witness for C9: a params-derived primitive on two instances that differ
everywhere except `params`. -/
theorem lambda_derived_from_primitive_witness :
    BaseCopula.lambda_ (fun a => (a.params, a.params)) ⟨2, "gumbel", [1], none⟩ =
      TailDep.mk [1] [1]
    ∧ BaseCopula.lambda_ (fun a => (a.params, a.params)) ⟨2, "gumbel", [1], none⟩ =
      BaseCopula.lambda_ (fun a => (a.params, a.params)) ⟨3, "frank", [1], some ⟨[1], 0, none⟩⟩ :=
  ⟨(lambda_derived_from_primitive (fun a => (a.params, a.params))
      ⟨2, "gumbel", [1], none⟩ ⟨3, "frank", [1], some ⟨[1], 0, none⟩⟩).1,
   (lambda_derived_from_primitive (fun a => (a.params, a.params))
      ⟨2, "gumbel", [1], none⟩ ⟨3, "frank", [1], some ⟨[1], 0, none⟩⟩).2
      (fun _ _ h => congrArg (fun p => (p, p)) h) rfl⟩

/-- Claim C10: the division-singular endpoints pass the range checks:
`concentration_down(0)` does not fail with a domain error and evaluates
`cdf(0,0) / 0`, and `concentration_up(1)` does not fail with a domain error
and evaluates `(1 - 2·1 + cdf(1,1)) / (1 - 1)` — both divisions by zero are
unguarded. -/
theorem concentration_endpoint_division_by_zero (cdf : ℚ → ℚ → ℚ) :
    BaseCopula.concentration_down cdf 0 = Except.ok (cdf 0 0 / 0)
    ∧ BaseCopula.concentration_down cdf 0 ≠ Except.error Err.domainError
    ∧ BaseCopula.concentration_up cdf 1 = Except.ok ((1 - 2 * 1 + cdf 1 1) / (1 - 1))
    ∧ BaseCopula.concentration_up cdf 1 ≠ Except.error Err.domainError := by
  have hd : ¬ ((0:ℚ) > 1/2 ∨ (0:ℚ) < 0) := by norm_num
  have hu : ¬ ((1:ℚ) < 1/2 ∨ (1:ℚ) > 1) := by norm_num
  refine ⟨?_, ?_, ?_, ?_⟩
  · simp only [BaseCopula.concentration_down]; rw [if_neg hd]
  · simp only [BaseCopula.concentration_down]; rw [if_neg hd]; simp
  · simp only [BaseCopula.concentration_up]; rw [if_neg hu]
  · simp only [BaseCopula.concentration_up]; rw [if_neg hu]; simp

end Copulae
